import Mathlib

/-
Verification of the photo-library web application in app.py.

The application is embedded shallowly: pure helper functions of app.py become
Lean functions, each HTTP handler becomes a function from the session, the
on-disk store and the request data to a result, and the effectful
collaborators that live outside the repository (werkzeug secure_filename,
json.loads of the standard library, PIL, the wall clock and the outbound
HTTP client) are passed in as explicit parameters or oracle values.
-/

set_option maxHeartbeats 1000000

namespace App

/-- JSON values as handled by the json module used in app.py. -/
inductive Json where
  | null : Json
  | bool (b : Bool) : Json
  | num (n : Int) : Json
  | str (s : String) : Json
  | arr (items : List Json) : Json
  | obj (fields : List (String × Json)) : Json

/-- Python whitespace characters: the set removed by str.strip and matched by
the regex whitespace class, restricted to ASCII. -/
def isPySpace (c : Char) : Bool :=
  c == ' ' || c == '\t' || c == '\n' || c == '\r' || c == '\x0b' || c == '\x0c'

/-- Python str.strip with no argument on a character list. -/
def pyStripList (l : List Char) : List Char :=
  ((l.dropWhile isPySpace).reverse.dropWhile isPySpace).reverse

/-- Python str.strip with no argument. -/
def pyStrip (s : String) : String := String.mk (pyStripList s.toList)

/-- Python str.lower, restricted to ASCII case mapping. -/
def pyLower (s : String) : String := String.mk (s.toList.map Char.toLower)

/-- A string with no leading and no trailing Python whitespace, the sense in
which a field value is whitespace-stripped. -/
def strippedString (s : String) : Bool :=
  (match s.toList.head? with
   | some c => !(isPySpace c)
   | none => true) &&
  (match s.toList.getLast? with
   | some c => !(isPySpace c)
   | none => true)

/-- ALLOWED_EXTENSIONS from app.py line 30. -/
def allowedExtensions : List String := ["jpg", "jpeg", "png", "webp", "heic"]

/-- Extension extraction of upload_photo, app.py line 150: the part after the
last dot, lowercased, when the name has a dot, and the empty string
otherwise. -/
def extOf (s : String) : String :=
  let cs := s.toList
  if cs.contains '.' then
    String.mk (((cs.reverse.takeWhile (fun c => c != '.')).reverse).map Char.toLower)
  else ""

/-- Extension as computed by _is_photo via Path.suffix, app.py line 214: the
part after the last dot when that dot is not the first character. -/
def pathSuffixExt (s : String) : String :=
  let cs := s.toList
  if (cs.drop 1).contains '.' then
    String.mk (((cs.reverse.takeWhile (fun c => c != '.')).reverse).map Char.toLower)
  else ""

/-- Membership in the character class [A-Za-z0-9] of LIBRARY_ID_PATTERN. -/
def isAlnum (c : Char) : Bool :=
  (decide ('A' ≤ c) && decide (c ≤ 'Z')) ||
  (decide ('a' ≤ c) && decide (c ≤ 'z')) ||
  (decide ('0' ≤ c) && decide (c ≤ '9'))

/-- Membership in the character class [A-Za-z0-9_-] of LIBRARY_ID_PATTERN. -/
def isIdChar (c : Char) : Bool :=
  isAlnum c || c == '_' || c == '-'

/-- Body of LIBRARY_ID_PATTERN without the anchors: one character of
[A-Za-z0-9] followed by 2 to 31 characters of [A-Za-z0-9_-]. -/
def idCore (cs : List Char) : Bool :=
  match cs with
  | [] => false
  | c :: rest =>
    isAlnum c && rest.all isIdChar && decide (2 ≤ rest.length) && decide (rest.length ≤ 31)

/-- LIBRARY_ID_PATTERN.match, app.py line 31 and line 86. The Python dollar
anchor also matches just before one trailing newline, so that variant is
included. -/
def libraryIdMatch (s : String) : Bool :=
  idCore s.toList ||
  (match s.toList.getLast? with
   | some c => c == '\n' && idCore s.toList.dropLast
   | none => false)

/-- Library id validity in the words of the specification: 3 to 32 characters
drawn from letters, digits, hyphen and underscore, starting with a letter or
digit. -/
def validLibraryId (s : String) : Bool :=
  let cs := s.toList
  decide (3 ≤ cs.length) && decide (cs.length ≤ 32) &&
  (match cs with
   | [] => false
   | c :: rest => isAlnum c && rest.all isIdChar)

/-- Body of EMAIL_PATTERN without the anchors: nonempty run without at-sign or
whitespace, an at-sign, then a nonempty run that contains a dot with nonempty
runs on both sides. -/
def emailCore (cs : List Char) : Bool :=
  let before := cs.takeWhile (fun c => c != '@')
  let after := (cs.dropWhile (fun c => c != '@')).drop 1
  cs.contains '@' &&
  !before.isEmpty && before.all (fun c => !(isPySpace c)) &&
  !after.isEmpty && after.all (fun c => c != '@' && !(isPySpace c)) &&
  ((after.drop 1).dropLast).contains '.'

/-- EMAIL_PATTERN.match, app.py line 32 and line 47, with the trailing-newline
variant of the dollar anchor. -/
def emailMatch (s : String) : Bool :=
  emailCore s.toList ||
  (match s.toList.getLast? with
   | some c => c == '\n' && emailCore s.toList.dropLast
   | none => false)

/-- An aware UTC datetime value as it appears in app.py: the result of
datetime.now with the UTC timezone or of strptime followed by a replace of the
timezone. -/
structure DateTime where
  year : Nat
  month : Nat
  day : Nat
  hour : Nat
  minute : Nat
  second : Nat
  micro : Nat

def pad2 (n : Nat) : String := if n < 10 then "0" ++ toString n else toString n

def pad4 (n : Nat) : String :=
  if n < 10 then "000" ++ toString n
  else if n < 100 then "00" ++ toString n
  else if n < 1000 then "0" ++ toString n
  else toString n

def pad6 (n : Nat) : String :=
  if n < 10 then "00000" ++ toString n
  else if n < 100 then "0000" ++ toString n
  else if n < 1000 then "000" ++ toString n
  else if n < 10000 then "00" ++ toString n
  else if n < 100000 then "0" ++ toString n
  else toString n

/-- strftime of app.py line 162 with format %Y%m%dT%H%M%SZ. -/
def strftimeCompact (dt : DateTime) : String :=
  pad4 dt.year ++ pad2 dt.month ++ pad2 dt.day ++ "T" ++
  pad2 dt.hour ++ pad2 dt.minute ++ pad2 dt.second ++ "Z"

/-- Date and time portion of datetime.isoformat for an aware UTC value. -/
def isoBody (dt : DateTime) : String :=
  pad4 dt.year ++ "-" ++ pad2 dt.month ++ "-" ++ pad2 dt.day ++ "T" ++
  pad2 dt.hour ++ ":" ++ pad2 dt.minute ++ ":" ++ pad2 dt.second ++
  (if dt.micro = 0 then "" else "." ++ pad6 dt.micro)

/-- datetime.isoformat for an aware UTC value: the body followed by the UTC
offset suffix. -/
def isoformatUTC (dt : DateTime) : String := isoBody dt ++ "+00:00"

def natOfDigits (ds : List Char) : Nat :=
  ds.foldl (fun a c => a * 10 + (c.toNat - 48)) 0

/-- Consume one expected separator character. -/
def expectChar (c : Char) : List Char → Option (List Char)
  | [] => none
  | x :: xs => if x = c then some xs else none

/-- Consume a run of one or two digits, as the strptime patterns for month,
day, hour, minute and second do. -/
def field12 (l : List Char) : Option (Nat × List Char) :=
  let ds := l.takeWhile Char.isDigit
  if ds.length = 1 ∨ ds.length = 2 then
    some (natOfDigits ds, l.dropWhile Char.isDigit)
  else none

def isLeapYear (y : Nat) : Bool := (y % 4 == 0 && y % 100 != 0) || y % 400 == 0

def daysInMonth (y m : Nat) : Nat :=
  if m = 2 then (if isLeapYear y then 29 else 28)
  else if m = 4 ∨ m = 6 ∨ m = 9 ∨ m = 11 then 30
  else 31

/-- datetime.strptime with format %Y:%m:%d %H:%M:%S as used in app.py line
253, including the range checks of the strptime field patterns and the
calendar validation of the datetime constructor; none models the ValueError
that app.py catches. The year field is exactly four digits, the other fields
are one or two digits. -/
def strptimeYmdHMS (s : String) : Option DateTime := do
  let cs := s.toList
  let yds := cs.takeWhile Char.isDigit
  if yds.length = 4 then
    let r1 ← expectChar ':' (cs.dropWhile Char.isDigit)
    let (m, r2) ← field12 r1
    let r3 ← expectChar ':' r2
    let (d, r4) ← field12 r3
    let r5 ← expectChar ' ' r4
    let (h, r6) ← field12 r5
    let r7 ← expectChar ':' r6
    let (mi, r8) ← field12 r7
    let r9 ← expectChar ':' r8
    let (sec, r10) ← field12 r9
    let y := natOfDigits yds
    if r10 = [] ∧ 1 ≤ y ∧ 1 ≤ m ∧ m ≤ 12 ∧ 1 ≤ d ∧ d ≤ daysInMonth y m ∧
       h ≤ 23 ∧ mi ≤ 59 ∧ sec ≤ 59 then
      pure ⟨y, m, d, h, mi, sec, 0⟩
    else none
  else none

/-- Take the elements of a list up to and including the last occurrence of a
character, the greedy extent of the dot-star in the fallback regexes of
_parse_json_content. -/
def takeThroughLast (c : Char) : List Char → List Char
  | [] => []
  | x :: xs =>
    if xs.contains c then x :: takeThroughLast c xs
    else if x = c then [x] else []

/-- re.search with the DOTALL pattern that matches an opening character, any
run, and a closing character, greedily: the leftmost start position with a
closing character somewhere after it, extended to the last closing
character. This is the search performed in _parse_json_content, app.py lines
325 and 331. -/
def searchSpan (o c : Char) : List Char → Option (List Char)
  | [] => none
  | x :: xs =>
    if x = o ∧ xs.contains c then some (x :: takeThroughLast c xs)
    else searchSpan o c xs

/-- Span in the words of the specification sentence of C5: the substring from
the first occurrence of the opening character to the last occurrence of the
closing character, when that substring exists. -/
def spanSpec (o c : Char) (cs : List Char) : Option (List Char) :=
  match cs.dropWhile (fun a => a != o) with
  | [] => none
  | x :: rest => if rest.contains c then some (x :: takeThroughLast c rest) else none

/-- Fallback value of _parse_json_content: a one-field object carrying the raw
content. -/
def rawFallback (content : List Char) : Json :=
  Json.obj [("raw", Json.str (String.mk content))]

/-- Curly-brace fallback of _parse_json_content, app.py lines 331 to 337. The
json.loads of the standard library is the loads parameter. -/
def braceFallback (loads : List Char → Option Json) (content : List Char) : Json :=
  match searchSpan '\x7b' '\x7d' content with
  | none => rawFallback content
  | some sub =>
    match loads sub with
    | some j => j
    | none => rawFallback content

/-- _parse_json_content of app.py lines 321 to 337, with json.loads passed in
as the loads parameter; a loads result of none models json.JSONDecodeError. -/
def parseJsonContent (loads : List Char → Option Json) (content : List Char) : Json :=
  match loads content with
  | some j => j
  | none =>
    match searchSpan '[' ']' content with
    | some sub =>
      match loads sub with
      | some j => j
      | none => braceFallback loads content
    | none => braceFallback loads content

/-- The cascade of C5 stated in the words of the specification: the parse of
the whole content when it is valid JSON, otherwise the parse of the substring
from the first opening bracket to the last closing bracket when that substring
exists and parses, otherwise the same for braces, otherwise the raw-content
object. -/
def parseJsonContentSpec (loads : List Char → Option Json) (content : List Char) : Json :=
  match loads content with
  | some j => j
  | none =>
    match (spanSpec '[' ']' content).bind loads with
    | some j => j
    | none =>
      match (spanSpec '\x7b' '\x7d' content).bind loads with
      | some j => j
      | none => rawFallback content

mutual
/-- Python repr, as used by str on containers, for the JSON values that can
reach _sanitize_book. -/
def pyRepr : Json → String
  | Json.null => "None"
  | Json.bool true => "True"
  | Json.bool false => "False"
  | Json.num n => toString n
  | Json.str s => "\x27" ++ s ++ "\x27"
  | Json.arr items => "[" ++ pyReprItems items ++ "]"
  | Json.obj fields => "\x7b" ++ pyReprFields fields ++ "\x7d"

def pyReprItems : List Json → String
  | [] => ""
  | [j] => pyRepr j
  | j :: rest => pyRepr j ++ ", " ++ pyReprItems rest

def pyReprFields : List (String × Json) → String
  | [] => ""
  | [(k, v)] => "\x27" ++ k ++ "\x27: " ++ pyRepr v
  | (k, v) :: rest => "\x27" ++ k ++ "\x27: " ++ pyRepr v ++ ", " ++ pyReprFields rest
end

/-- Python str applied to a JSON value: the value itself for a string,
otherwise its repr. -/
def pyStr (j : Json) : String :=
  match j with
  | Json.str s => s
  | other => pyRepr other

/-- dict.get on the fields of a JSON object. -/
def jsonGet (fields : List (String × Json)) (k : String) : Option Json :=
  match fields with
  | [] => none
  | (k', v) :: rest => if k' = k then some v else jsonGet rest k

/-- Python truthiness of a JSON value. -/
def truthy : Json → Bool
  | Json.null => false
  | Json.bool b => b
  | Json.num n => n != 0
  | Json.str s => s != ""
  | Json.arr items => !items.isEmpty
  | Json.obj fields => !fields.isEmpty

/-- The expression item.get(key) or the empty string, as written in
_sanitize_book: the looked-up value when it is truthy, the empty string
otherwise. -/
def getOrEmpty (fields : List (String × Json)) (k : String) : Json :=
  match jsonGet fields k with
  | some v => if truthy v then v else Json.str ""
  | none => Json.str ""

/-- _sanitize_book of app.py lines 352 to 357. -/
def sanitizeBook (fields : List (String × Json)) : Json :=
  Json.obj [("title", Json.str (pyStrip (pyStr (getOrEmpty fields "title")))),
            ("author", Json.str (pyStrip (pyStr (getOrEmpty fields "author")))),
            ("publisher", Json.str (pyStrip (pyStr (getOrEmpty fields "publisher"))))]

/-- The list comprehension of _normalize_analysis_data: sanitize the items
that are dicts, drop the rest. -/
def sanitizeItems (items : List Json) : List Json :=
  items.filterMap (fun j => match j with
    | Json.obj fs => some (sanitizeBook fs)
    | _ => none)

/-- _normalize_analysis_data of app.py lines 340 to 349. -/
def normalizeAnalysisData (parsed : Json) : Json :=
  match parsed with
  | Json.arr items => Json.obj [("books", Json.arr (sanitizeItems items))]
  | Json.obj fields =>
    match jsonGet fields "books" with
    | some (Json.arr items) => Json.obj [("books", Json.arr (sanitizeItems items))]
    | _ =>
      if (jsonGet fields "title").isSome ∨ (jsonGet fields "author").isSome ∨
         (jsonGet fields "publisher").isSome then
        Json.obj [("books", Json.arr [sanitizeBook fields])]
      else Json.obj fields
  | other => Json.obj [("raw", other)]

/-- One record of the records.json array of a library, with the four fields
written by upload_photo. -/
structure Record where
  filename : String
  uploadedAt : String
  captureDate : Option String
  analysis : Json

/-- One directory entry under DATA_DIR: a library directory with its photo
files and the array stored in its records.json, or a plain file. -/
inductive Entry where
  | dir (photos : List String) (records : List Record)
  | plainFile

/-- The contents of DATA_DIR, keyed by entry name. -/
abbrev Store := List (String × Entry)

def lookupStore (store : Store) (k : String) : Option Entry :=
  match store with
  | [] => none
  | (k', e) :: rest => if k' = k then some e else lookupStore rest k

/-- Path.exists on DATA_DIR / name. -/
def existsEntry (store : Store) (k : String) : Bool :=
  (lookupStore store k).isSome

/-- Write an entry under a name, replacing an entry of the same name. -/
def setEntry (store : Store) (k : String) (e : Entry) : Store :=
  match store with
  | [] => [(k, e)]
  | (k', e') :: rest => if k' = k then (k, e) :: rest else (k', e') :: setEntry rest k e

def isDirEntry : Entry → Bool
  | Entry.dir _ _ => true
  | Entry.plainFile => false

/-- The records array of a library as _load_records reads it: empty when the
library or its records.json is absent. -/
def recordsOf (store : Store) (k : String) : List Record :=
  match lookupStore store k with
  | some (Entry.dir _ rs) => rs
  | _ => []

/-- file.save on the library directory: the stored name is present afterwards,
overwriting a file of the same name. -/
def savePhoto (name : String) (photos : List String) : List String :=
  if photos.contains name then photos else photos ++ [name]

/-- Lexicographic order on code points, the comparison Python sorted uses on
strings. -/
def listLexLe : List Char → List Char → Bool
  | [], _ => true
  | _ :: _, [] => false
  | x :: xs, y :: ys =>
    if x.toNat < y.toNat then true
    else if x.toNat = y.toNat then listLexLe xs ys
    else false

def pyStrLe (a b : String) : Bool := listLexLe a.toList b.toList

def insertSortedBy (le : String → String → Bool) (x : String) : List String → List String
  | [] => [x]
  | y :: ys => if le x y then x :: y :: ys else y :: insertSortedBy le x ys

def sortStringsBy (le : String → String → Bool) : List String → List String
  | [] => []
  | x :: xs => insertSortedBy le x (sortStringsBy le xs)

/-- _library_list and the listing in index: the names of the directory entries
of DATA_DIR, sorted with a casefolded key. -/
def libraryList (store : Store) : List String :=
  sortStringsBy (fun a b => pyStrLe (pyLower a) (pyLower b))
    ((store.filter (fun p => isDirEntry p.2)).map (fun p => p.1))

/-- _photo_list and the listing in library_detail: the photo files of the
library directory, sorted in reverse. -/
def photoListOf (photos : List String) : List String :=
  sortStringsBy (fun a b => pyStrLe b a)
    (photos.filter (fun n => allowedExtensions.contains (pathSuffixExt n)))

/-- One insertion into a Python dict: replace the value at an existing key in
place, append a new key at the end. -/
def dictInsert (k : String) (v : Record) : List (String × Record) → List (String × Record)
  | [] => [(k, v)]
  | (k', v') :: rest => if k' = k then (k', v) :: rest else (k', v') :: dictInsert k v rest

/-- The dict comprehension of _records_map and library_detail, app.py lines
122 and 235: iterate the records in order, keying each by its filename, with
later insertions overwriting earlier ones. -/
def recordsMapOf (records : List Record) : List (String × Record) :=
  records.foldl (fun m r => dictInsert r.filename r m) []

def mapLookup (m : List (String × Record)) (k : String) : Option Record :=
  match m with
  | [] => none
  | (k', v) :: rest => if k' = k then some v else mapLookup rest k

/-- _append_record on the loaded array, app.py line 228: the new record is
inserted at index zero. -/
def appendRecordList (r : Record) (records : List Record) : List Record :=
  r :: records

/-- Outcome of opening the saved image and reading its EXIF tags 36867 and
306 through PIL, an external collaborator. -/
inductive ExifOutcome where
  | openFailure
  | exifData (tag36867 : Option String) (tag306 : Option String)

/-- The expression exif.get of tag 36867 or exif.get of tag 306, with Python
or-semantics: the first operand when truthy, the second otherwise. -/
def exifDateStr : ExifOutcome → Option String
  | ExifOutcome.openFailure => none
  | ExifOutcome.exifData a b =>
    match a with
    | some s => if s = "" then b else some s
    | none => b

/-- _extract_capture_date of app.py lines 238 to 257. The pil flag is false
when the PIL import failed; openFailure models any exception from Image.open
or getexif, which the function catches. -/
def extractCaptureDate (pil : Bool) (o : ExifOutcome) : Option String :=
  if pil then
    match o with
    | ExifOutcome.openFailure => none
    | ExifOutcome.exifData _ _ =>
      match exifDateStr o with
      | none => none
      | some s =>
        if s = "" then none
        else
          match strptimeYmdHMS s with
          | none => none
          | some dt => some (isoformatUTC dt)
  else none

/-- The environment of one upload_photo request: the sanitizer from werkzeug,
the wall clock, the PIL availability flag and EXIF oracle for the saved file,
the process environment, json.loads, and the outcome of the outbound HTTP
call, where an error value models any exception raised inside the try block of
_analyze_image and an ok value carries the message content extracted from the
response. -/
structure UploadEnv where
  sanitize : String → String
  now : DateTime
  pil : Bool
  exif : ExifOutcome
  getenv : String → Option String
  loads : List Char → Option Json
  http : Except String String

/-- The analysis value produced when OPENAI_API_KEY is unset or empty. -/
def skippedAnalysis : Json :=
  Json.obj [("status", Json.str "skipped"), ("reason", Json.str "OPENAI_API_KEYが未設定です。")]

/-- _analyze_image of app.py lines 260 to 318, returning the analysis value
together with the number of outbound HTTP calls performed. -/
def analyzeImage (env : UploadEnv) : Json × Nat :=
  match env.getenv "OPENAI_API_KEY" with
  | none => (skippedAnalysis, 0)
  | some apiKey =>
    if apiKey = "" then (skippedAnalysis, 0)
    else
      match env.http with
      | Except.error e =>
        (Json.obj [("status", Json.str "error"), ("reason", Json.str e)], 1)
      | Except.ok content =>
        (Json.obj [("status", Json.str "ok"),
                   ("data", normalizeAnalysisData (parseJsonContent env.loads content.toList))], 1)

/-- The responses a handler can produce: redirects, the rendered templates
with the data passed to them, the abort cases, and file serving. serverError
models an uncaught exception. -/
inductive Response where
  | redirect (location : String)
  | renderLogin (error : Option String)
  | renderIndex (libraries : List String) (error : Option String) (email : Option String)
  | renderLibrary (libraryId : String) (photos : List String)
      (recordsByName : List (String × Record)) (error : Option String) (email : Option String)
  | notFound
  | serverError
  | sendFile (libraryId : String) (filename : String)

/-- Result of one handled request: the response, the session afterwards, the
store afterwards, and the number of outbound HTTP calls performed. -/
structure HandlerResult where
  response : Response
  session : Option String
  store : Store
  httpCalls : Nat

/-- _require_login of app.py lines 60 to 63: a redirect to the login page when
the session has no email key. The session is modelled as the optional value of
that key. -/
def requireLoginRedirect (session : Option String) : Option Response :=
  match session with
  | none => some (Response.redirect "/login")
  | some _ => none

/-- login_form, app.py lines 39 to 41. -/
def login_form (session : Option String) (store : Store) : HandlerResult :=
  ⟨Response.renderLogin none, session, store, 0⟩

/-- login_submit, app.py lines 44 to 51. -/
def login_submit (session : Option String) (store : Store) (formEmail : Option String) :
    HandlerResult :=
  let email := pyLower (pyStrip (formEmail.getD ""))
  if emailMatch email then ⟨Response.redirect "/", some email, store, 0⟩
  else ⟨Response.renderLogin (some "有効なメールアドレスを入力してください。"), session, store, 0⟩

/-- logout, app.py lines 54 to 57. -/
def logout (_session : Option String) (store : Store) : HandlerResult :=
  ⟨Response.redirect "/login", none, store, 0⟩

/-- index, app.py lines 66 to 76. -/
def index (session : Option String) (store : Store) : HandlerResult :=
  match requireLoginRedirect session with
  | some r => ⟨r, session, store, 0⟩
  | none => ⟨Response.renderIndex (libraryList store) none session, session, store, 0⟩

/-- create_library, app.py lines 79 to 104. -/
def create_library (session : Option String) (store : Store) (formLibraryId : Option String) :
    HandlerResult :=
  match requireLoginRedirect session with
  | some r => ⟨r, session, store, 0⟩
  | none =>
    let library_id := pyStrip (formLibraryId.getD "")
    if libraryIdMatch library_id then
      if existsEntry store library_id then
        ⟨Response.renderIndex (libraryList store) (some "同じIDがすでに登録されています。") session,
         session, store, 0⟩
      else
        ⟨Response.redirect ("/libraries/" ++ library_id), session,
         setEntry store library_id (Entry.dir [] []), 0⟩
    else
      ⟨Response.renderIndex (libraryList store)
        (some "IDは3〜32文字の英数字・ハイフン・アンダースコアで入力してください。") session,
       session, store, 0⟩

/-- library_detail, app.py lines 107 to 129. A plain file under the library
name makes iterdir raise, which surfaces as a server error. -/
def library_detail (session : Option String) (store : Store) (library_id : String) :
    HandlerResult :=
  match requireLoginRedirect session with
  | some r => ⟨r, session, store, 0⟩
  | none =>
    match lookupStore store library_id with
    | none => ⟨Response.notFound, session, store, 0⟩
    | some Entry.plainFile => ⟨Response.serverError, session, store, 0⟩
    | some (Entry.dir photos records) =>
      ⟨Response.renderLibrary library_id (photoListOf photos) (recordsMapOf records)
        none session, session, store, 0⟩

/-- upload_photo, app.py lines 132 to 177. The uploaded file is modelled by
its client-side filename; a missing or falsy file redirects back to the
detail page. -/
def upload_photo (session : Option String) (store : Store) (library_id : String)
    (file : Option String) (env : UploadEnv) : HandlerResult :=
  match requireLoginRedirect session with
  | some r => ⟨r, session, store, 0⟩
  | none =>
    match lookupStore store library_id with
    | none => ⟨Response.notFound, session, store, 0⟩
    | some entry =>
      match file with
      | none => ⟨Response.redirect ("/libraries/" ++ library_id), session, store, 0⟩
      | some clientName =>
        if clientName = "" then
          ⟨Response.redirect ("/libraries/" ++ library_id), session, store, 0⟩
        else
          let filename := env.sanitize clientName
          let ext := extOf filename
          if allowedExtensions.contains ext then
            match entry with
            | Entry.plainFile => ⟨Response.serverError, session, store, 0⟩
            | Entry.dir photos records =>
              let stored_name := strftimeCompact env.now ++ "_" ++ filename
              let capture_date := extractCaptureDate env.pil env.exif
              let analysisResult := analyzeImage env
              let record : Record :=
                ⟨stored_name, isoformatUTC env.now, capture_date, analysisResult.1⟩
              ⟨Response.redirect ("/libraries/" ++ library_id), session,
               setEntry store library_id
                 (Entry.dir (savePhoto stored_name photos) (appendRecordList record records)),
               analysisResult.2⟩
          else
            match entry with
            | Entry.plainFile => ⟨Response.serverError, session, store, 0⟩
            | Entry.dir photos records =>
              ⟨Response.renderLibrary library_id (photoListOf photos) (recordsMapOf records)
                (some "対応形式は jpg / png / webp / heic です。") session, session, store, 0⟩

/-- uploaded_file, app.py lines 180 to 189. send_from_directory is external; a
plain file under the library name makes the joined path miss, which
send_from_directory reports as not found. -/
def uploaded_file (session : Option String) (store : Store) (library_id filename : String) :
    HandlerResult :=
  match requireLoginRedirect session with
  | some r => ⟨r, session, store, 0⟩
  | none =>
    match lookupStore store library_id with
    | none => ⟨Response.notFound, session, store, 0⟩
    | some Entry.plainFile => ⟨Response.notFound, session, store, 0⟩
    | some (Entry.dir _ _) => ⟨Response.sendFile library_id filename, session, store, 0⟩

/-- The requests the application routes, one constructor per registered route
handler. -/
inductive Request where
  | getLoginForm
  | postLogin (formEmail : Option String)
  | postLogout
  | getIndex
  | postLibraries (formLibraryId : Option String)
  | getLibraryDetail (libraryId : String)
  | postLibraryPhoto (libraryId : String) (file : Option String)
  | getUploadedFile (libraryId : String) (filename : String)

/-- Dispatch of one request to its handler. -/
def handle (req : Request) (session : Option String) (store : Store) (env : UploadEnv) :
    HandlerResult :=
  match req with
  | Request.getLoginForm => login_form session store
  | Request.postLogin formEmail => login_submit session store formEmail
  | Request.postLogout => logout session store
  | Request.getIndex => index session store
  | Request.postLibraries formLibraryId => create_library session store formLibraryId
  | Request.getLibraryDetail libraryId => library_detail session store libraryId
  | Request.postLibraryPhoto libraryId file => upload_photo session store libraryId file env
  | Request.getUploadedFile libraryId filename => uploaded_file session store libraryId filename

/-- The route table registered on the Flask application, one pair of method
and rule per decorated handler, in source order: app.py lines 39, 44, 54, 66,
79, 107, 132 and 180. -/
def routes : List (String × String) :=
  [("GET", "/login"),
   ("POST", "/login"),
   ("POST", "/logout"),
   ("GET", "/"),
   ("POST", "/libraries"),
   ("GET", "/libraries/<library_id>"),
   ("POST", "/libraries/<library_id>/photos"),
   ("GET", "/uploads/<library_id>/<path:filename>")]

/-- A concrete request environment: identity sanitizer, a fixed clock, PIL
absent, no process environment, a json.loads that always fails, and a failing
HTTP transport. -/
def envNoKey : UploadEnv :=
  ⟨fun s => s, ⟨2024, 1, 2, 3, 4, 5, 0⟩, false, ExifOutcome.openFailure,
   fun _ => none, fun _ => none, Except.error ""⟩

/-- A concrete store holding one empty library. -/
def demoStore : Store := [("lib", Entry.dir [] [])]

/-! Helper lemmas. -/

theorem head?_dropWhile (p : Char → Bool) (l : List Char) (c : Char)
    (h : (l.dropWhile p).head? = some c) : p c = false := by
  induction l with
  | nil => simp [List.dropWhile] at h
  | cons x xs ih =>
    by_cases hx : p x
    · rw [List.dropWhile_cons, if_pos hx] at h
      exact ih h
    · rw [List.dropWhile_cons, if_neg hx] at h
      simp only [List.head?_cons, Option.some.injEq] at h
      subst h
      exact Bool.not_eq_true _ ▸ (by simpa using hx)

theorem getLast?_dropWhile (p : Char → Bool) (l : List Char) (h : l.dropWhile p ≠ []) :
    (l.dropWhile p).getLast? = l.getLast? := by
  induction l with
  | nil => simp [List.dropWhile] at h
  | cons x xs ih =>
    by_cases hx : p x
    · rw [List.dropWhile_cons, if_pos hx] at h ⊢
      rw [ih h]
      have hxs : xs ≠ [] := by
        intro hh
        subst hh
        simp [List.dropWhile] at h
      cases xs with
      | nil => exact absurd rfl hxs
      | cons y ys => rw [List.getLast?_cons_cons]
    · rw [List.dropWhile_cons, if_neg hx]

theorem pyStrip_head_not_space (s : String) (c : Char)
    (h : (pyStrip s).toList.head? = some c) : isPySpace c = false := by
  have hl : (pyStrip s).toList = pyStripList s.toList := rfl
  rw [hl] at h
  unfold pyStripList at h
  rw [List.head?_reverse] at h
  have hne : (s.toList.dropWhile isPySpace).reverse.dropWhile isPySpace ≠ [] := by
    intro hh
    rw [hh] at h
    simp at h
  rw [getLast?_dropWhile _ _ hne, List.getLast?_reverse] at h
  exact head?_dropWhile _ _ _ h

theorem pyStrip_getLast_not_space (s : String) (c : Char)
    (h : (pyStrip s).toList.getLast? = some c) : isPySpace c = false := by
  have hl : (pyStrip s).toList = pyStripList s.toList := rfl
  rw [hl] at h
  unfold pyStripList at h
  rw [List.getLast?_reverse] at h
  exact head?_dropWhile _ _ _ h

theorem strippedString_pyStrip (s : String) : strippedString (pyStrip s) = true := by
  unfold strippedString
  cases h1 : (pyStrip s).toList.head? with
  | none =>
    cases h2 : (pyStrip s).toList.getLast? with
    | none => rfl
    | some c => simp [pyStrip_getLast_not_space s c h2]
  | some c =>
    cases h2 : (pyStrip s).toList.getLast? with
    | none => simp [pyStrip_head_not_space s c h1]
    | some d => simp [pyStrip_head_not_space s c h1, pyStrip_getLast_not_space s d h2]

theorem libraryIdMatch_pyStrip (s : String) :
    libraryIdMatch (pyStrip s) = idCore (pyStrip s).toList := by
  unfold libraryIdMatch
  cases h : (pyStrip s).toList.getLast? with
  | none => simp
  | some c =>
    have hsp : isPySpace c = false := pyStrip_getLast_not_space s c h
    have hne : (c == '\n') = false := by
      cases hc : c == '\n'
      · rfl
      · have : c = '\n' := by simpa using hc
        subst this
        simp [isPySpace] at hsp
    simp [hne]

theorem idCore_eq_valid (s : String) : idCore s.toList = validLibraryId s := by
  unfold idCore validLibraryId
  cases h : s.toList with
  | nil => simp
  | cons c rest =>
    rw [Bool.eq_iff_iff]
    simp only [Bool.and_eq_true, decide_eq_true_eq, List.length_cons]
    constructor
    · rintro ⟨⟨⟨h1, h2⟩, h3⟩, h4⟩
      exact ⟨⟨by omega, by omega⟩, h1, h2⟩
    · rintro ⟨⟨h1, h2⟩, h3, h4⟩
      exact ⟨⟨⟨h3, h4⟩, by omega⟩, by omega⟩

theorem libraryIdMatch_strip_eq_valid (s : String) :
    libraryIdMatch (pyStrip s) = validLibraryId (pyStrip s) :=
  (libraryIdMatch_pyStrip s).trans (idCore_eq_valid (pyStrip s))

theorem lookup_setEntry (store : Store) (k : String) (e : Entry) (q : String) :
    lookupStore (setEntry store k e) q = if q = k then some e else lookupStore store q := by
  induction store with
  | nil =>
    simp only [setEntry, lookupStore]
    by_cases h : k = q
    · subst h
      simp
    · rw [if_neg h, if_neg (fun hh => h hh.symm)]
  | cons p rest ih =>
    obtain ⟨k0, e0⟩ := p
    simp only [setEntry]
    by_cases h0 : k0 = k
    · subst h0
      rw [if_pos rfl]
      simp only [lookupStore]
      by_cases h1 : k0 = q
      · subst h1
        simp
      · rw [if_neg h1, if_neg (fun hh => h1 hh.symm), if_neg h1]
    · rw [if_neg h0]
      simp only [lookupStore]
      by_cases h1 : k0 = q
      · subst h1
        rw [if_pos rfl, if_neg (fun hh : k0 = k => h0 hh), if_pos rfl]
      · rw [if_neg h1, ih, if_neg h1]

theorem recordsOf_setEntry_self (store : Store) (k : String) (photos : List String)
    (rs : List Record) :
    recordsOf (setEntry store k (Entry.dir photos rs)) k = rs := by
  simp [recordsOf, lookup_setEntry]

theorem recordsOf_setEntry_other (store : Store) (k : String) (e : Entry) (q : String)
    (h : q ≠ k) : recordsOf (setEntry store k e) q = recordsOf store q := by
  simp [recordsOf, lookup_setEntry, h]

theorem recordsOf_of_lookup_none (store : Store) (k : String)
    (h : lookupStore store k = none) : recordsOf store k = [] := by
  simp [recordsOf, h]

theorem mapLookup_dictInsert (k : String) (v : Record) (m : List (String × Record))
    (q : String) :
    mapLookup (dictInsert k v m) q = if q = k then some v else mapLookup m q := by
  induction m with
  | nil =>
    simp only [dictInsert, mapLookup]
    by_cases h : k = q
    · subst h
      simp
    · rw [if_neg h, if_neg (fun hh => h hh.symm)]
  | cons p rest ih =>
    obtain ⟨k0, v0⟩ := p
    simp only [dictInsert]
    by_cases h0 : k0 = k
    · subst h0
      rw [if_pos rfl]
      simp only [mapLookup]
      by_cases h1 : k0 = q
      · subst h1
        simp
      · rw [if_neg h1, if_neg (fun hh => h1 hh.symm), if_neg h1]
    · rw [if_neg h0]
      simp only [mapLookup]
      by_cases h1 : k0 = q
      · subst h1
        rw [if_pos rfl, if_neg (fun hh : k0 = k => h0 hh), if_pos rfl]
      · rw [if_neg h1, ih, if_neg h1]

theorem mapLookup_recordsFold (records : List Record) (acc : List (String × Record))
    (q : String) :
    mapLookup (records.foldl (fun m r => dictInsert r.filename r m) acc) q =
      match (records.filter (fun r => r.filename == q)).getLast? with
      | some r => some r
      | none => mapLookup acc q := by
  induction records generalizing acc with
  | nil => rfl
  | cons r rs ih =>
    rw [List.foldl_cons, ih]
    cases hfr : (r.filename == q) with
    | true =>
      have hq : q = r.filename := (eq_of_beq hfr).symm
      rw [List.filter_cons, if_pos hfr]
      cases h1 : (rs.filter (fun x => x.filename == q)).getLast? with
      | some x =>
        have hne : rs.filter (fun x => x.filename == q) ≠ [] := by
          intro hh
          rw [hh] at h1
          simp at h1
        cases hfe : rs.filter (fun x => x.filename == q) with
        | nil => exact absurd hfe hne
        | cons y ys =>
          rw [hfe] at h1
          rw [List.getLast?_cons_cons, h1]
      | none =>
        have hfe : rs.filter (fun x => x.filename == q) = [] :=
          List.getLast?_eq_none_iff.mp h1
        rw [hfe]
        show mapLookup (dictInsert r.filename r acc) q = some r
        rw [mapLookup_dictInsert, if_pos hq]
    | false =>
      rw [List.filter_cons, if_neg (by rw [hfr]; exact Bool.false_ne_true)]
      cases h1 : (rs.filter (fun x => x.filename == q)).getLast? with
      | some x => rfl
      | none =>
        rw [mapLookup_dictInsert]
        rw [if_neg (fun hh : q = r.filename => by rw [hh] at hfr; simp at hfr)]

theorem searchSpan_eq_none (o c : Char) (l : List Char) (h : l.contains c = false) :
    searchSpan o c l = none := by
  induction l with
  | nil => rfl
  | cons x xs ih =>
    have hx : xs.contains c = false := by
      rw [List.contains_cons] at h
      exact (Bool.or_eq_false_iff.mp h).2
    rw [searchSpan, if_neg (fun hc => by rw [hx] at hc; exact Bool.false_ne_true hc.2)]
    exact ih hx

theorem searchSpan_eq_spanSpec (o c : Char) (l : List Char) :
    searchSpan o c l = spanSpec o c l := by
  induction l with
  | nil => rfl
  | cons x xs ih =>
    by_cases hx : x = o
    · subst hx
      have hdw : (x :: xs).dropWhile (fun a => a != x) = x :: xs := by
        rw [List.dropWhile_cons, if_neg (by simp)]
      unfold spanSpec
      rw [hdw]
      by_cases hc : xs.contains c = true
      · rw [searchSpan, if_pos ⟨rfl, hc⟩]
        show some (x :: takeThroughLast c xs) =
          if xs.contains c = true then some (x :: takeThroughLast c xs) else none
        rw [if_pos hc]
      · have hcf : xs.contains c = false := Bool.not_eq_true _ ▸ (by simpa using hc)
        rw [searchSpan, if_neg (fun hh => hc hh.2)]
        show searchSpan x c xs =
          if xs.contains c = true then some (x :: takeThroughLast c xs) else none
        rw [if_neg hc]
        exact searchSpan_eq_none x c xs hcf
    · have hdw : (x :: xs).dropWhile (fun a => a != o) = xs.dropWhile (fun a => a != o) := by
        rw [List.dropWhile_cons, if_pos (by simpa using hx)]
      rw [searchSpan, if_neg (fun hh => hx hh.1), ih]
      unfold spanSpec
      rw [hdw]

theorem analyzeImage_calls_le_one (env : UploadEnv) : (analyzeImage env).2 ≤ 1 := by
  unfold analyzeImage
  cases env.getenv "OPENAI_API_KEY" with
  | none => exact Nat.zero_le 1
  | some k =>
    by_cases hk : k = ""
    · simp [hk]
    · cases env.http <;> simp [hk]

theorem analyzeImage_skipped (env : UploadEnv)
    (h : env.getenv "OPENAI_API_KEY" = none ∨ env.getenv "OPENAI_API_KEY" = some "") :
    analyzeImage env = (skippedAnalysis, 0) := by
  unfold analyzeImage
  rcases h with h | h <;> rw [h]
  simp

theorem upload_photo_calls_cases (session : Option String) (store : Store)
    (library_id : String) (file : Option String) (env : UploadEnv) :
    (upload_photo session store library_id file env).httpCalls = 0 ∨
    (upload_photo session store library_id file env).httpCalls = (analyzeImage env).2 := by
  unfold upload_photo
  cases session with
  | none => exact Or.inl rfl
  | some email =>
    simp only [requireLoginRedirect]
    cases lookupStore store library_id with
    | none => exact Or.inl rfl
    | some entry =>
      cases file with
      | none => exact Or.inl rfl
      | some clientName =>
        simp only []
        by_cases hn : clientName = ""
        · rw [if_pos hn]
          exact Or.inl rfl
        · rw [if_neg hn]
          by_cases he : allowedExtensions.contains (extOf (env.sanitize clientName)) = true
          · rw [if_pos he]
            cases entry with
            | plainFile => exact Or.inl rfl
            | dir photos records => exact Or.inr rfl
          · rw [if_neg he]
            cases entry with
            | plainFile => exact Or.inl rfl
            | dir photos records => exact Or.inl rfl

theorem records_suffix (req : Request) (sess : Option String) (st : Store) (env : UploadEnv)
    (lib : String) :
    ∃ t, t ++ recordsOf st lib = recordsOf (handle req sess st env).store lib := by
  cases req with
  | getLoginForm => exact ⟨[], rfl⟩
  | postLogin formEmail =>
    simp only [handle, login_submit]
    by_cases h : emailMatch (pyLower (pyStrip (formEmail.getD ""))) = true
    · rw [if_pos h]
      exact ⟨[], rfl⟩
    · rw [if_neg h]
      exact ⟨[], rfl⟩
  | postLogout => exact ⟨[], rfl⟩
  | getIndex =>
    cases sess with
    | none => exact ⟨[], rfl⟩
    | some email => exact ⟨[], rfl⟩
  | getLibraryDetail libraryId =>
    unfold handle library_detail
    cases sess with
    | none => exact ⟨[], rfl⟩
    | some email =>
      simp only [requireLoginRedirect]
      cases hl : lookupStore st libraryId with
      | none => exact ⟨[], rfl⟩
      | some entry => cases entry <;> exact ⟨[], rfl⟩
  | getUploadedFile libraryId filename =>
    unfold handle uploaded_file
    cases sess with
    | none => exact ⟨[], rfl⟩
    | some email =>
      simp only [requireLoginRedirect]
      cases hl : lookupStore st libraryId with
      | none => exact ⟨[], rfl⟩
      | some entry => cases entry <;> exact ⟨[], rfl⟩
  | postLibraries formLibraryId =>
    unfold handle create_library
    cases sess with
    | none => exact ⟨[], rfl⟩
    | some email =>
      simp only [requireLoginRedirect]
      by_cases hv : libraryIdMatch (pyStrip (formLibraryId.getD "")) = true
      · rw [if_pos hv]
        by_cases he : existsEntry st (pyStrip (formLibraryId.getD "")) = true
        · rw [if_pos he]
          exact ⟨[], rfl⟩
        · rw [if_neg he]
          simp only []
          have hnone : lookupStore st (pyStrip (formLibraryId.getD "")) = none := by
            unfold existsEntry at he
            cases hl : lookupStore st (pyStrip (formLibraryId.getD "")) with
            | none => rfl
            | some e => rw [hl] at he; simp at he
          by_cases hlib : lib = pyStrip (formLibraryId.getD "")
          · subst hlib
            refine ⟨[], ?_⟩
            show [] ++ recordsOf st (pyStrip (formLibraryId.getD "")) =
              recordsOf (setEntry st (pyStrip (formLibraryId.getD "")) (Entry.dir [] []))
                (pyStrip (formLibraryId.getD ""))
            rw [recordsOf_of_lookup_none st _ hnone, recordsOf_setEntry_self]
            rfl
          · refine ⟨[], ?_⟩
            show [] ++ recordsOf st lib =
              recordsOf (setEntry st (pyStrip (formLibraryId.getD "")) (Entry.dir [] [])) lib
            rw [recordsOf_setEntry_other st _ _ lib hlib]
            rfl
      · rw [if_neg hv]
        exact ⟨[], rfl⟩
  | postLibraryPhoto libraryId file =>
    unfold handle upload_photo
    cases sess with
    | none => exact ⟨[], rfl⟩
    | some email =>
      simp only [requireLoginRedirect]
      cases hl : lookupStore st libraryId with
      | none => exact ⟨[], rfl⟩
      | some entry =>
        cases file with
        | none => exact ⟨[], rfl⟩
        | some clientName =>
          simp only []
          by_cases hn : clientName = ""
          · rw [if_pos hn]
            exact ⟨[], rfl⟩
          · rw [if_neg hn]
            by_cases he : allowedExtensions.contains (extOf (env.sanitize clientName)) = true
            · rw [if_pos he]
              cases entry with
              | plainFile => exact ⟨[], rfl⟩
              | dir photos records =>
                by_cases hlib : lib = libraryId
                · subst hlib
                  refine ⟨[⟨strftimeCompact env.now ++ "_" ++ env.sanitize clientName,
                    isoformatUTC env.now, extractCaptureDate env.pil env.exif,
                    (analyzeImage env).1⟩], ?_⟩
                  show _ ++ recordsOf st lib =
                    recordsOf (setEntry st lib
                      (Entry.dir (savePhoto (strftimeCompact env.now ++ "_" ++ env.sanitize clientName) photos)
                        (appendRecordList
                          ⟨strftimeCompact env.now ++ "_" ++ env.sanitize clientName,
                           isoformatUTC env.now, extractCaptureDate env.pil env.exif,
                           (analyzeImage env).1⟩ records))) lib
                  rw [recordsOf_setEntry_self]
                  have h1 : recordsOf st lib = records := by
                    unfold recordsOf
                    rw [hl]
                  rw [h1]
                  rfl
                · refine ⟨[], ?_⟩
                  show [] ++ recordsOf st lib =
                    recordsOf (setEntry st libraryId
                      (Entry.dir (savePhoto (strftimeCompact env.now ++ "_" ++ env.sanitize clientName) photos)
                        (appendRecordList
                          ⟨strftimeCompact env.now ++ "_" ++ env.sanitize clientName,
                           isoformatUTC env.now, extractCaptureDate env.pil env.exif,
                           (analyzeImage env).1⟩ records))) lib
                  rw [recordsOf_setEntry_other st _ _ lib hlib]
                  rfl
            · rw [if_neg he]
              cases entry <;> exact ⟨[], rfl⟩

theorem sanitizeBook_shape (fs : List (String × Json)) :
    ∃ t a p, sanitizeBook fs =
      Json.obj [("title", Json.str t), ("author", Json.str a), ("publisher", Json.str p)] ∧
      strippedString t = true ∧ strippedString a = true ∧ strippedString p = true :=
  ⟨pyStrip (pyStr (getOrEmpty fs "title")), pyStrip (pyStr (getOrEmpty fs "author")),
   pyStrip (pyStr (getOrEmpty fs "publisher")), rfl,
   strippedString_pyStrip _, strippedString_pyStrip _, strippedString_pyStrip _⟩

theorem sanitizeItems_shape (items : List Json) :
    ∀ b ∈ sanitizeItems items, ∃ t a p,
      b = Json.obj [("title", Json.str t), ("author", Json.str a), ("publisher", Json.str p)] ∧
      strippedString t = true ∧ strippedString a = true ∧ strippedString p = true := by
  intro b hb
  unfold sanitizeItems at hb
  rcases List.mem_filterMap.mp hb with ⟨j, hj, hm⟩
  cases j with
  | obj fs =>
    simp only [Option.some.injEq] at hm
    rcases sanitizeBook_shape fs with ⟨t, a, p, heq, h1, h2, h3⟩
    exact ⟨t, a, p, by rw [← hm, heq], h1, h2, h3⟩
  | null => simp at hm
  | bool bb => simp at hm
  | num n => simp at hm
  | str s => simp at hm
  | arr xs => simp at hm

theorem normalize_books_fallthrough (fields : List (String × Json))
    (hno : ∀ items, jsonGet fields "books" ≠ some (Json.arr items))
    (hor : (jsonGet fields "title").isSome = true ∨ (jsonGet fields "author").isSome = true ∨
      (jsonGet fields "publisher").isSome = true) :
    normalizeAnalysisData (Json.obj fields) =
      Json.obj [("books", Json.arr [sanitizeBook fields])] := by
  cases hb : jsonGet fields "books" with
  | none =>
    unfold normalizeAnalysisData
    simp only []
    rw [if_pos hor]
  | some v =>
    cases v with
    | arr items => exact absurd hb (hno items)
    | null =>
      unfold normalizeAnalysisData
      simp only []
      rw [if_pos hor]
    | bool bb =>
      unfold normalizeAnalysisData
      simp only []
      rw [if_pos hor]
    | num n =>
      unfold normalizeAnalysisData
      simp only []
      rw [if_pos hor]
    | str s =>
      unfold normalizeAnalysisData
      simp only []
      rw [if_pos hor]
    | obj fs =>
      unfold normalizeAnalysisData
      simp only []
      rw [if_pos hor]

/-! Claim theorems. -/

/-- C1: for every request to the index page, library creation, library
detail, photo upload or stored-file serving, when the session does not
contain an email key the handler returns a redirect to the login page, the
store is unchanged, and the response does not depend on the store, so no
library directory or records file is read or modified. -/
theorem c1_unauthenticated_requests_redirect :
    ∀ (store : Store) (formLibraryId : Option String) (libraryId filename : String)
      (file : Option String) (env : UploadEnv),
      index none store = ⟨Response.redirect "/login", none, store, 0⟩ ∧
      create_library none store formLibraryId = ⟨Response.redirect "/login", none, store, 0⟩ ∧
      library_detail none store libraryId = ⟨Response.redirect "/login", none, store, 0⟩ ∧
      upload_photo none store libraryId file env = ⟨Response.redirect "/login", none, store, 0⟩ ∧
      uploaded_file none store libraryId filename = ⟨Response.redirect "/login", none, store, 0⟩ := by
  intro store formLibraryId libraryId filename file env
  exact ⟨rfl, rfl, rfl, rfl, rfl⟩

/-- C8 counterexample: the route table of app.py does not have six entries. -/
theorem c8_counterexample_not_six_routes : ¬ (routes.length = 6) := by decide

/-- C8 amended: the HTTP layer registers exactly eight route handlers on the
application. -/
theorem c8_eight_route_handlers : routes.length = 8 := rfl

/-- C6 counterexample: after appending an older record and then a newer
record that share one filename, the per-filename map used by library_detail
resolves that filename to the older record, although the two records
differ. -/
theorem c6_counterexample_oldest_wins :
    mapLookup (recordsMapOf (appendRecordList
        ⟨"20240102T000000Z_a.jpg", "2024-01-02T00:00:00+00:00", none, Json.null⟩
        (appendRecordList
          ⟨"20240102T000000Z_a.jpg", "2024-01-01T00:00:00+00:00", none, Json.null⟩ [])))
      "20240102T000000Z_a.jpg" =
        some ⟨"20240102T000000Z_a.jpg", "2024-01-01T00:00:00+00:00", none, Json.null⟩ ∧
    (⟨"20240102T000000Z_a.jpg", "2024-01-01T00:00:00+00:00", none, Json.null⟩ : Record) ≠
      ⟨"20240102T000000Z_a.jpg", "2024-01-02T00:00:00+00:00", none, Json.null⟩ := by
  constructor
  · rfl
  · intro h
    exact absurd (congrArg Record.uploadedAt h) (by decide)

/-- C6 amended: the per-filename map resolves every filename to the record
occurring last in the stored array; because _append_record inserts new
records at the front, that is the earliest written record with that
filename, so the first write wins. -/
theorem c6_records_map_resolves_to_last_array_entry :
    ∀ (records : List Record) (q : String),
      mapLookup (recordsMapOf records) q =
        (records.filter (fun r => r.filename == q)).getLast? := by
  intro records q
  unfold recordsMapOf
  rw [mapLookup_recordsFold]
  cases h : (records.filter (fun r => r.filename == q)).getLast? with
  | some r => rfl
  | none => rfl

/-- C5: _parse_json_content is total and follows the cascade of the
specification: the parse of the whole content when it is valid JSON,
otherwise the parse of the substring from the first opening bracket to the
last closing bracket when it exists and parses, otherwise the parse of the
substring from the first opening brace to the last closing brace when it
exists and parses, otherwise the raw-content object; this holds for every
behaviour of the external json.loads. -/
theorem c5_parse_json_content_cascade :
    ∀ (loads : List Char → Option Json) (content : List Char),
      parseJsonContent loads content = parseJsonContentSpec loads content := by
  intro loads content
  unfold parseJsonContent parseJsonContentSpec braceFallback
  rw [searchSpan_eq_spanSpec, searchSpan_eq_spanSpec]
  cases h0 : loads content with
  | some j => rfl
  | none =>
    cases h1 : spanSpec '[' ']' content with
    | some sub =>
      cases h2 : loads sub with
      | some j => simp [h2]
      | none =>
        cases h3 : spanSpec '\x7b' '\x7d' content with
        | some sub2 =>
          cases h4 : loads sub2 with
          | some j => simp [h2, h4]
          | none => simp [h2, h4]
        | none => simp [h2]
    | none =>
      cases h3 : spanSpec '\x7b' '\x7d' content with
      | some sub2 =>
        cases h4 : loads sub2 with
        | some j => simp [h4]
        | none => simp [h4]
      | none => simp

/-- C9: _extract_capture_date is total in the embedding and either returns
none, or returns the isoformat of a datetime parsed by strptime from the
date string obtained from EXIF tag 36867 or, when that is falsy, tag 306,
with the UTC offset suffix; PIL absence, open failure, a missing or falsy
tag value and a parse failure all yield none. -/
theorem c9_extract_capture_date_shape :
    ∀ (pil : Bool) (o : ExifOutcome),
      extractCaptureDate pil o = none ∨
      ∃ (s : String) (dt : DateTime),
        pil = true ∧ exifDateStr o = some s ∧ strptimeYmdHMS s = some dt ∧
        extractCaptureDate pil o = some (isoBody dt ++ "+00:00") := by
  intro pil o
  cases pil with
  | false => exact Or.inl rfl
  | true =>
    cases o with
    | openFailure => exact Or.inl rfl
    | exifData a b =>
      cases h : exifDateStr (ExifOutcome.exifData a b) with
      | none =>
        exact Or.inl (by unfold extractCaptureDate; rw [if_pos rfl, h])
      | some s =>
        by_cases hs : s = ""
        · exact Or.inl (by unfold extractCaptureDate; simp [h, hs])
        · cases hdt : strptimeYmdHMS s with
          | none =>
            exact Or.inl (by unfold extractCaptureDate; simp [h, hs, hdt])
          | some dt =>
            refine Or.inr ⟨s, dt, rfl, rfl, hdt, ?_⟩
            unfold extractCaptureDate
            simp [h, hs, hdt, isoformatUTC]

/-- C7: every photo upload performs at most one outbound HTTP call, and when
the OPENAI_API_KEY environment variable is unset or empty it performs none
and the analysis value is the skipped-status object. -/
theorem c7_at_most_one_api_call :
    ∀ (session : Option String) (store : Store) (libraryId : String) (file : Option String)
      (env : UploadEnv),
      (upload_photo session store libraryId file env).httpCalls ≤ 1 ∧
      ((env.getenv "OPENAI_API_KEY" = none ∨ env.getenv "OPENAI_API_KEY" = some "") →
        (upload_photo session store libraryId file env).httpCalls = 0 ∧
        analyzeImage env = (skippedAnalysis, 0)) := by
  intro session store libraryId file env
  constructor
  · rcases upload_photo_calls_cases session store libraryId file env with h | h
    · rw [h]
      exact Nat.zero_le 1
    · rw [h]
      exact analyzeImage_calls_le_one env
  · intro hk
    have ha := analyzeImage_skipped env hk
    refine ⟨?_, ha⟩
    rcases upload_photo_calls_cases session store libraryId file env with h | h
    · exact h
    · rw [h, ha]

/-- C7 witness: in an environment with no OPENAI_API_KEY, a concrete upload
performs zero HTTP calls and the analysis value is the skipped-status
object. -/
theorem c7_witness :
    (envNoKey.getenv "OPENAI_API_KEY" = none ∨ envNoKey.getenv "OPENAI_API_KEY" = some "") ∧
    ((upload_photo (some "u@example.com") demoStore "lib" (some "a.jpg") envNoKey).httpCalls ≤ 1 ∧
     ((envNoKey.getenv "OPENAI_API_KEY" = none ∨ envNoKey.getenv "OPENAI_API_KEY" = some "") →
       (upload_photo (some "u@example.com") demoStore "lib" (some "a.jpg") envNoKey).httpCalls = 0 ∧
       analyzeImage envNoKey = (skippedAnalysis, 0))) :=
  ⟨Or.inl rfl, c7_at_most_one_api_call (some "u@example.com") demoStore "lib" (some "a.jpg") envNoKey⟩

/-- C2: a successful upload stores the file under the name formed by the
compact UTC timestamp, an underscore and the sanitized filename, and writes
exactly one new record with the fields filename, uploaded_at, capture_date
and analysis at the front of the records array, leaving every previously
stored record unchanged; moreover, for every request handled by the
application the previous records array of every library is a suffix of the
new one, so records are only ever added. -/
theorem c2_upload_appends_one_timestamped_record :
    ∀ (env : UploadEnv) (store : Store) (email libraryId clientName : String)
      (photos : List String) (records : List Record),
      lookupStore store libraryId = some (Entry.dir photos records) →
      clientName ≠ "" →
      allowedExtensions.contains (extOf (env.sanitize clientName)) = true →
      ((upload_photo (some email) store libraryId (some clientName) env =
          ⟨Response.redirect ("/libraries/" ++ libraryId), some email,
           setEntry store libraryId
             (Entry.dir
               (savePhoto (strftimeCompact env.now ++ "_" ++ env.sanitize clientName) photos)
               (appendRecordList
                 ⟨strftimeCompact env.now ++ "_" ++ env.sanitize clientName,
                  isoformatUTC env.now, extractCaptureDate env.pil env.exif,
                  (analyzeImage env).1⟩ records)),
           (analyzeImage env).2⟩ ∧
        recordsOf (upload_photo (some email) store libraryId (some clientName) env).store
            libraryId =
          ⟨strftimeCompact env.now ++ "_" ++ env.sanitize clientName,
           isoformatUTC env.now, extractCaptureDate env.pil env.exif,
           (analyzeImage env).1⟩ :: records) ∧
      (∀ (req : Request) (sess : Option String) (st : Store) (lib : String),
        ∃ t, t ++ recordsOf st lib = recordsOf (handle req sess st env).store lib)) := by
  intro env store email libraryId clientName photos records h1 h2 h3
  have hup : upload_photo (some email) store libraryId (some clientName) env =
      ⟨Response.redirect ("/libraries/" ++ libraryId), some email,
       setEntry store libraryId
         (Entry.dir
           (savePhoto (strftimeCompact env.now ++ "_" ++ env.sanitize clientName) photos)
           (appendRecordList
             ⟨strftimeCompact env.now ++ "_" ++ env.sanitize clientName,
              isoformatUTC env.now, extractCaptureDate env.pil env.exif,
              (analyzeImage env).1⟩ records)),
       (analyzeImage env).2⟩ := by
    unfold upload_photo
    simp only [requireLoginRedirect]
    rw [h1]
    simp only []
    rw [if_neg h2, if_pos h3]
  refine ⟨⟨hup, ?_⟩, ?_⟩
  · rw [hup]
    show recordsOf (setEntry store libraryId
      (Entry.dir
        (savePhoto (strftimeCompact env.now ++ "_" ++ env.sanitize clientName) photos)
        (appendRecordList
          ⟨strftimeCompact env.now ++ "_" ++ env.sanitize clientName,
           isoformatUTC env.now, extractCaptureDate env.pil env.exif,
           (analyzeImage env).1⟩ records))) libraryId = _
    rw [recordsOf_setEntry_self]
    rfl
  · intro req sess st lib
    exact records_suffix req sess st env lib

/-- C2 witness: a concrete successful upload into an empty library stores the
timestamped file and prepends exactly one record. -/
theorem c2_witness :
    lookupStore demoStore "lib" = some (Entry.dir [] []) ∧ ("a.jpg" : String) ≠ "" ∧
    allowedExtensions.contains (extOf (envNoKey.sanitize "a.jpg")) = true ∧
    (((upload_photo (some "u@example.com") demoStore "lib" (some "a.jpg") envNoKey =
        ⟨Response.redirect ("/libraries/" ++ "lib"), some "u@example.com",
         setEntry demoStore "lib"
           (Entry.dir
             (savePhoto (strftimeCompact envNoKey.now ++ "_" ++ envNoKey.sanitize "a.jpg") [])
             (appendRecordList
               ⟨strftimeCompact envNoKey.now ++ "_" ++ envNoKey.sanitize "a.jpg",
                isoformatUTC envNoKey.now, extractCaptureDate envNoKey.pil envNoKey.exif,
                (analyzeImage envNoKey).1⟩ [])),
         (analyzeImage envNoKey).2⟩ ∧
      recordsOf (upload_photo (some "u@example.com") demoStore "lib" (some "a.jpg") envNoKey).store
          "lib" =
        ⟨strftimeCompact envNoKey.now ++ "_" ++ envNoKey.sanitize "a.jpg",
         isoformatUTC envNoKey.now, extractCaptureDate envNoKey.pil envNoKey.exif,
         (analyzeImage envNoKey).1⟩ :: []) ∧
     (∀ (req : Request) (sess : Option String) (st : Store) (lib : String),
       ∃ t, t ++ recordsOf st lib = recordsOf (handle req sess st envNoKey).store lib))) :=
  ⟨rfl, by decide, rfl,
   c2_upload_appends_one_timestamped_record envNoKey demoStore "u@example.com" "lib" "a.jpg"
     [] [] rfl (by decide) rfl⟩

/-- C3: given a logged-in session, an existing library directory and a
nonempty uploaded filename, the upload is accepted exactly when the lowercase
extension of the sanitized filename is one of the allowed extensions: on
acceptance the file is saved and a record appended, and on rejection the
library error page is rendered and the store is unchanged, so no file is
saved and no record is appended. -/
theorem c3_extension_validation :
    ∀ (env : UploadEnv) (store : Store) (email libraryId clientName : String)
      (photos : List String) (records : List Record),
      lookupStore store libraryId = some (Entry.dir photos records) →
      clientName ≠ "" →
      ((allowedExtensions.contains (extOf (env.sanitize clientName)) = true →
          upload_photo (some email) store libraryId (some clientName) env =
            ⟨Response.redirect ("/libraries/" ++ libraryId), some email,
             setEntry store libraryId
               (Entry.dir
                 (savePhoto (strftimeCompact env.now ++ "_" ++ env.sanitize clientName) photos)
                 (appendRecordList
                   ⟨strftimeCompact env.now ++ "_" ++ env.sanitize clientName,
                    isoformatUTC env.now, extractCaptureDate env.pil env.exif,
                    (analyzeImage env).1⟩ records)),
             (analyzeImage env).2⟩) ∧
       (allowedExtensions.contains (extOf (env.sanitize clientName)) = false →
          upload_photo (some email) store libraryId (some clientName) env =
            ⟨Response.renderLibrary libraryId (photoListOf photos) (recordsMapOf records)
               (some "対応形式は jpg / png / webp / heic です。") (some email),
             some email, store, 0⟩)) := by
  intro env store email libraryId clientName photos records h1 h2
  constructor
  · intro h3
    unfold upload_photo
    simp only [requireLoginRedirect]
    rw [h1]
    simp only []
    rw [if_neg h2, if_pos h3]
  · intro h3
    unfold upload_photo
    simp only [requireLoginRedirect]
    rw [h1]
    simp only []
    rw [if_neg h2, if_neg (by rw [h3]; exact Bool.false_ne_true)]

/-- C3 witness: a concrete upload of a file named a.txt into an existing
library is rejected, the error page is rendered and the store is
unchanged. -/
theorem c3_witness :
    lookupStore demoStore "lib" = some (Entry.dir [] []) ∧ ("a.txt" : String) ≠ "" ∧
    allowedExtensions.contains (extOf (envNoKey.sanitize "a.txt")) = false ∧
    ((allowedExtensions.contains (extOf (envNoKey.sanitize "a.txt")) = true →
        upload_photo (some "u@example.com") demoStore "lib" (some "a.txt") envNoKey =
          ⟨Response.redirect ("/libraries/" ++ "lib"), some "u@example.com",
           setEntry demoStore "lib"
             (Entry.dir
               (savePhoto (strftimeCompact envNoKey.now ++ "_" ++ envNoKey.sanitize "a.txt") [])
               (appendRecordList
                 ⟨strftimeCompact envNoKey.now ++ "_" ++ envNoKey.sanitize "a.txt",
                  isoformatUTC envNoKey.now, extractCaptureDate envNoKey.pil envNoKey.exif,
                  (analyzeImage envNoKey).1⟩ [])),
           (analyzeImage envNoKey).2⟩) ∧
     (allowedExtensions.contains (extOf (envNoKey.sanitize "a.txt")) = false →
        upload_photo (some "u@example.com") demoStore "lib" (some "a.txt") envNoKey =
          ⟨Response.renderLibrary "lib" (photoListOf []) (recordsMapOf [])
             (some "対応形式は jpg / png / webp / heic です。") (some "u@example.com"),
           some "u@example.com", demoStore, 0⟩)) :=
  ⟨rfl, by decide, rfl,
   c3_extension_validation envNoKey demoStore "u@example.com" "lib" "a.txt" [] []
     rfl (by decide)⟩

/-- C4: create_library creates the directory and redirects to the detail page
exactly when the stripped id is 3 to 32 characters of letters, digits, hyphen
and underscore starting with a letter or digit and no entry of that name
exists, and otherwise re-renders the index page with an error message and
leaves the store unchanged. -/
theorem c4_create_library_validation :
    ∀ (store : Store) (email : String) (formLibraryId : Option String),
      ((validLibraryId (pyStrip (formLibraryId.getD "")) = true ∧
        lookupStore store (pyStrip (formLibraryId.getD "")) = none) →
        create_library (some email) store formLibraryId =
          ⟨Response.redirect ("/libraries/" ++ pyStrip (formLibraryId.getD "")), some email,
           setEntry store (pyStrip (formLibraryId.getD "")) (Entry.dir [] []), 0⟩ ∧
        lookupStore (create_library (some email) store formLibraryId).store
            (pyStrip (formLibraryId.getD "")) = some (Entry.dir [] [])) ∧
      (¬(validLibraryId (pyStrip (formLibraryId.getD "")) = true ∧
         lookupStore store (pyStrip (formLibraryId.getD "")) = none) →
        (create_library (some email) store formLibraryId).store = store ∧
        ∃ msg, (create_library (some email) store formLibraryId).response =
          Response.renderIndex (libraryList store) (some msg) (some email)) := by
  intro store email formLibraryId
  constructor
  · rintro ⟨hv, hn⟩
    have hm : libraryIdMatch (pyStrip (formLibraryId.getD "")) = true := by
      rw [libraryIdMatch_strip_eq_valid]
      exact hv
    have he : ¬ existsEntry store (pyStrip (formLibraryId.getD "")) = true := by
      unfold existsEntry
      rw [hn]
      simp
    have hcr : create_library (some email) store formLibraryId =
        ⟨Response.redirect ("/libraries/" ++ pyStrip (formLibraryId.getD "")), some email,
         setEntry store (pyStrip (formLibraryId.getD "")) (Entry.dir [] []), 0⟩ := by
      unfold create_library
      simp only [requireLoginRedirect]
      rw [if_pos hm, if_neg he]
    refine ⟨hcr, ?_⟩
    rw [hcr]
    show lookupStore (setEntry store (pyStrip (formLibraryId.getD "")) (Entry.dir [] []))
        (pyStrip (formLibraryId.getD "")) = some (Entry.dir [] [])
    rw [lookup_setEntry, if_pos rfl]
  · intro hcon
    by_cases hv : validLibraryId (pyStrip (formLibraryId.getD "")) = true
    · have hm : libraryIdMatch (pyStrip (formLibraryId.getD "")) = true := by
        rw [libraryIdMatch_strip_eq_valid]
        exact hv
      have hne : ¬ lookupStore store (pyStrip (formLibraryId.getD "")) = none :=
        fun hh => hcon ⟨hv, hh⟩
      have he : existsEntry store (pyStrip (formLibraryId.getD "")) = true := by
        unfold existsEntry
        cases hl : lookupStore store (pyStrip (formLibraryId.getD "")) with
        | none => exact absurd hl hne
        | some e => rfl
      have hcr : create_library (some email) store formLibraryId =
          ⟨Response.renderIndex (libraryList store)
             (some "同じIDがすでに登録されています。") (some email),
           some email, store, 0⟩ := by
        unfold create_library
        simp only [requireLoginRedirect]
        rw [if_pos hm, if_pos he]
      rw [hcr]
      exact ⟨rfl, "同じIDがすでに登録されています。", rfl⟩
    · have hvf : validLibraryId (pyStrip (formLibraryId.getD "")) = false := by
        revert hv
        cases validLibraryId (pyStrip (formLibraryId.getD "")) <;> simp
      have hm : ¬ libraryIdMatch (pyStrip (formLibraryId.getD "")) = true := by
        rw [libraryIdMatch_strip_eq_valid, hvf]
        exact Bool.false_ne_true
      have hcr : create_library (some email) store formLibraryId =
          ⟨Response.renderIndex (libraryList store)
             (some "IDは3〜32文字の英数字・ハイフン・アンダースコアで入力してください。") (some email),
           some email, store, 0⟩ := by
        unfold create_library
        simp only [requireLoginRedirect]
        rw [if_neg hm]
      rw [hcr]
      exact ⟨rfl, "IDは3〜32文字の英数字・ハイフン・アンダースコアで入力してください。", rfl⟩

/-- C4 witness: a concrete submission of the id lib-1 surrounded by spaces to
an empty store creates the directory lib-1 and redirects to its detail
page. -/
theorem c4_witness :
    (validLibraryId (pyStrip ((some " lib-1 " : Option String).getD "")) = true ∧
     lookupStore ([] : Store) (pyStrip ((some " lib-1 " : Option String).getD "")) = none) ∧
    (((validLibraryId (pyStrip ((some " lib-1 " : Option String).getD "")) = true ∧
       lookupStore ([] : Store) (pyStrip ((some " lib-1 " : Option String).getD "")) = none) →
       create_library (some "u@example.com") ([] : Store) (some " lib-1 ") =
         ⟨Response.redirect ("/libraries/" ++ pyStrip ((some " lib-1 " : Option String).getD "")),
          some "u@example.com",
          setEntry ([] : Store) (pyStrip ((some " lib-1 " : Option String).getD ""))
            (Entry.dir [] []), 0⟩ ∧
       lookupStore (create_library (some "u@example.com") ([] : Store) (some " lib-1 ")).store
           (pyStrip ((some " lib-1 " : Option String).getD "")) = some (Entry.dir [] [])) ∧
     (¬(validLibraryId (pyStrip ((some " lib-1 " : Option String).getD "")) = true ∧
        lookupStore ([] : Store) (pyStrip ((some " lib-1 " : Option String).getD "")) = none) →
       (create_library (some "u@example.com") ([] : Store) (some " lib-1 ")).store = [] ∧
       ∃ msg, (create_library (some "u@example.com") ([] : Store) (some " lib-1 ")).response =
         Response.renderIndex (libraryList []) (some msg) (some "u@example.com"))) :=
  ⟨⟨by decide, rfl⟩, c4_create_library_validation ([] : Store) "u@example.com" (some " lib-1 ")⟩

/-- C10: _normalize_analysis_data applied to a list, to a dict whose books
key holds a list, or to a dict containing at least one of the keys title,
author and publisher, returns an object with a single books key holding a
list in which every entry is an object with exactly the keys title, author
and publisher, each mapped to a string with no leading or trailing
whitespace, and the non-dict items of an input list are dropped. -/
theorem c10_normalize_analysis_shape :
    ∀ (parsed : Json),
      ((∃ items, parsed = Json.arr items) ∨
       (∃ fields, parsed = Json.obj fields ∧
         ((∃ items, jsonGet fields "books" = some (Json.arr items)) ∨
          (jsonGet fields "title").isSome = true ∨
          (jsonGet fields "author").isSome = true ∨
          (jsonGet fields "publisher").isSome = true))) →
      ∃ books,
        normalizeAnalysisData parsed = Json.obj [("books", Json.arr books)] ∧
        (∀ b ∈ books, ∃ t a p,
          b = Json.obj [("title", Json.str t), ("author", Json.str a),
            ("publisher", Json.str p)] ∧
          strippedString t = true ∧ strippedString a = true ∧ strippedString p = true) ∧
        (∀ items, parsed = Json.arr items → books = sanitizeItems items) := by
  intro parsed hcond
  rcases hcond with ⟨items, rfl⟩ | ⟨fields, rfl, hin⟩
  · refine ⟨sanitizeItems items, rfl, sanitizeItems_shape items, ?_⟩
    intro items2 h
    injection h with h2
    exact congrArg sanitizeItems h2
  · by_cases harr : ∃ items, jsonGet fields "books" = some (Json.arr items)
    · rcases harr with ⟨items, hital⟩
      refine ⟨sanitizeItems items, ?_, sanitizeItems_shape items, ?_⟩
      · unfold normalizeAnalysisData
        simp only []
        rw [hital]
      · intro items2 h
        exact absurd h (by simp)
    · have hno : ∀ items, jsonGet fields "books" ≠ some (Json.arr items) :=
        fun items hh => harr ⟨items, hh⟩
      have hor : (jsonGet fields "title").isSome = true ∨
          (jsonGet fields "author").isSome = true ∨
          (jsonGet fields "publisher").isSome = true := by
        rcases hin with ⟨items, hital⟩ | ht | ha | hp
        · exact absurd hital (hno items)
        · exact Or.inl ht
        · exact Or.inr (Or.inl ha)
        · exact Or.inr (Or.inr hp)
      refine ⟨[sanitizeBook fields], normalize_books_fallthrough fields hno hor, ?_, ?_⟩
      · intro b hb
        have hbe : b = sanitizeBook fields := by
          simpa using hb
        rcases sanitizeBook_shape fields with ⟨t, a, p, heq, s1, s2, s3⟩
        exact ⟨t, a, p, hbe ▸ heq, s1, s2, s3⟩
      · intro items2 h
        exact absurd h (by simp)

/-- C10 witness: a concrete list holding one dict and one string normalizes
to a books object with one sanitized entry, the string item being
dropped. -/
theorem c10_witness :
    ((∃ items, (Json.arr [Json.obj [("title", Json.str " A "), ("isbn", Json.num 3)],
        Json.str "junk"]) = Json.arr items) ∨
     (∃ fields, (Json.arr [Json.obj [("title", Json.str " A "), ("isbn", Json.num 3)],
        Json.str "junk"]) = Json.obj fields ∧
       ((∃ items, jsonGet fields "books" = some (Json.arr items)) ∨
        (jsonGet fields "title").isSome = true ∨
        (jsonGet fields "author").isSome = true ∨
        (jsonGet fields "publisher").isSome = true))) ∧
    (∃ books,
      normalizeAnalysisData (Json.arr [Json.obj [("title", Json.str " A "), ("isbn", Json.num 3)],
          Json.str "junk"]) = Json.obj [("books", Json.arr books)] ∧
      (∀ b ∈ books, ∃ t a p,
        b = Json.obj [("title", Json.str t), ("author", Json.str a),
          ("publisher", Json.str p)] ∧
        strippedString t = true ∧ strippedString a = true ∧ strippedString p = true) ∧
      (∀ items, (Json.arr [Json.obj [("title", Json.str " A "), ("isbn", Json.num 3)],
          Json.str "junk"]) = Json.arr items → books = sanitizeItems items)) :=
  ⟨Or.inl ⟨[Json.obj [("title", Json.str " A "), ("isbn", Json.num 3)], Json.str "junk"], rfl⟩,
   c10_normalize_analysis_shape
     (Json.arr [Json.obj [("title", Json.str " A "), ("isbn", Json.num 3)], Json.str "junk"])
     (Or.inl ⟨[Json.obj [("title", Json.str " A "), ("isbn", Json.num 3)], Json.str "junk"], rfl⟩)⟩

end App
